import Mathlib

/-!
Verification of the progress-parsing and process-supervision logic of a
small downloader front-end (`src/main.rs`).

The embedding models:
* `parse_progress` (src/main.rs:313-341): a pure function from one output
  line to an optional percentage;
* the `start_download` worker (src/main.rs:153-310): executable extraction,
  child spawn, draining of the two output streams, and translation of the
  exit status into a terminal `RunState`.

Strings are Lean `String`s; the Rust helpers `str::contains`,
`str::split_whitespace`, `str::ends_with`, `str::trim_end_matches` are
re-implemented over `List Char`.  The numeric type `f32` is idealised as
`ℚ`: `str::parse::<f32>` is modelled by an exact decimal parser over the
same accepted grammar (optional sign, digits with an optional fractional
part, optional decimal exponent); the non-finite literals `inf`/`nan` and
overflow-to-infinity lie outside the rational model and no claim touches
them.  Rust's Unicode whitespace class is restricted to its ASCII part.
-/

/-- Decimal digit test (Rust `char::is_ascii_digit` as used by float parsing). -/
def isDigitCh (c : Char) : Bool :=
  '0' ≤ c && c ≤ '9'

/-- ASCII part of Rust's `char::is_whitespace` (Unicode White_Space). -/
def isWsCh (c : Char) : Bool :=
  c = ' ' || c = '\t' || c = '\n' || c = '\r' || c = '\x0b' || c = '\x0c'

/-- `pat.isPrefixOf hay` for char lists (first argument is the pattern). -/
def listStartsWith : List Char → List Char → Bool
  | [], _ => true
  | _ :: _, [] => false
  | p :: ps, c :: cs => p = c && listStartsWith ps cs

/-- Substring containment on char lists: some suffix of `hay` starts with `pat`. -/
def listContainsSub (hay pat : List Char) : Bool :=
  match hay with
  | [] => listStartsWith pat []
  | _ :: rest => listStartsWith pat hay || listContainsSub rest pat

/-- Rust `str::contains(pat)` (substring containment). -/
def containsStr (hay pat : String) : Bool :=
  listContainsSub hay.data pat.data

/-- Rust `str::split_whitespace`: maximal runs of non-whitespace characters.
`acc` is the current token, accumulated in reverse. -/
def splitWsAux : List Char → List Char → List (List Char)
  | [], acc => if acc.isEmpty then [] else [acc.reverse]
  | c :: rest, acc =>
    if isWsCh c then
      if acc.isEmpty then splitWsAux rest [] else acc.reverse :: splitWsAux rest []
    else
      splitWsAux rest (c :: acc)

/-- Rust `str::split_whitespace` on a whole line. -/
def splitWs (s : List Char) : List (List Char) :=
  splitWsAux s []

/-- Rust `str::trim_end_matches('%')`: drop every trailing `'%'`. -/
def trimEndPct (t : List Char) : List Char :=
  (t.reverse.dropWhile (fun c => c = '%')).reverse

/-- Rust `str::ends_with('%')` on a token. -/
def endsWithPct (t : List Char) : Bool :=
  t.getLast? = some '%'

/-- Value of a digit character. -/
def digitVal (c : Char) : ℕ :=
  c.toNat - '0'.toNat

/-- Value of a digit run read most-significant first. -/
def digitsVal (ds : List Char) : ℕ :=
  ds.foldl (fun acc c => 10 * acc + digitVal c) 0

/-- The exponent suffix of the float grammar: empty, or `[eE][+-]?digits+`,
which must consume the whole remainder.  Returns the signed exponent. -/
def parseExpPart : List Char → Option ℤ
  | [] => some 0
  | 'e' :: r => parseExpDigits r
  | 'E' :: r => parseExpDigits r
  | _ => none
where
  /-- `[+-]?digits+`, consuming everything. -/
  parseExpDigits : List Char → Option ℤ
    | '+' :: r => parseExpNat r
    | '-' :: r => (parseExpNat r).map (fun n => -n)
    | r => parseExpNat r
  /-- `digits+`, consuming everything. -/
  parseExpNat (r : List Char) : Option ℤ :=
    if r.isEmpty then none
    else if r.all isDigitCh then some (digitsVal r : ℤ)
    else none

/-- `10 ^ n` by recursion (kernel-reducible power of ten). -/
def pow10 : ℕ → ℕ
  | 0 => 1
  | n + 1 => 10 * pow10 n

/-- The rational `± m · 10 ^ e`, built with `mkRat` so that it evaluates by
kernel reduction. -/
def ratOfParts (neg : Bool) (m : ℕ) (e : ℤ) : ℚ :=
  let n : ℤ := if neg then -(m : ℤ) else (m : ℤ)
  if 0 ≤ e then mkRat (n * (pow10 e.toNat : ℤ)) 1 else mkRat n (pow10 (-e).toNat)

/-- Rust `str::parse::<f32>` on the finite-number part of its grammar,
idealised over `ℚ`: `[+-]? (digits+ | digits+ '.' digits* | digits* '.' digits+)
([eE][+-]?digits+)?`, full-string match.  The value of `±a.b e±c` is
`± (digits of a followed by digits of b) · 10 ^ (±c - |b|)`.  Non-finite
literals (`inf`, `nan`) fall outside the rational model and yield `none`. -/
def parseF32 (s : List Char) : Option ℚ :=
  let (neg, r) : Bool × List Char :=
    match s with
    | '+' :: r => (false, r)
    | '-' :: r => (true, r)
    | r => (false, r)
  let intPart := r.takeWhile isDigitCh
  let r2 := r.dropWhile isDigitCh
  match r2 with
  | '.' :: r3 =>
    let fracPart := r3.takeWhile isDigitCh
    let r4 := r3.dropWhile isDigitCh
    if intPart.isEmpty && fracPart.isEmpty then none
    else
      (parseExpPart r4).map fun e =>
        ratOfParts neg (digitsVal (intPart ++ fracPart)) (e - fracPart.length)
  | _ =>
    if intPart.isEmpty then none
    else
      (parseExpPart r2).map fun e => ratOfParts neg (digitsVal intPart) e

/-- The token-scanning loop of `parse_progress` (src/main.rs:329-337): the
first whitespace token ending in `'%'` whose `'%'`-trimmed body parses as a
float yields its value. -/
def findPercent : List (List Char) → Option ℚ
  | [] => none
  | t :: rest =>
    if endsWithPct t then
      match parseF32 (trimEndPct t) with
      | some v => some v
      | none => findPercent rest
    else findPercent rest

/-- `parse_progress` (src/main.rs:313-341). -/
def parse_progress (line : String) : Option ℚ :=
  if containsStr line "[Merger]" || containsStr line "Merging formats into" then
    some 99
  else if containsStr line "[ffmpeg]" then
    some (mkRat 199 2)
  else if containsStr line "[download]" && containsStr line "%" then
    findPercent (splitWs line.data)
  else
    none

/-!
## Process supervisor (`start_download`, src/main.rs:153-310)

The shared mutable state `(status, progress, is_downloading)` behind the
three `Arc<Mutex<_>>`s is a `RunState` record, threaded explicitly.  The
run's external effects — the three `extract_file` calls, the `spawn`, the
child's two output streams and its `wait` result — are abstracted into a
`WorkerEnv`/`ChildProc` script, so one run of the worker thread's closure
is a pure function of the script.  The stderr-draining loop touches no
shared state (it only accumulates the local `has_error`/`error_message`),
and the worker joins the stdout thread before `wait`, so sequencing the
stdout fold before the stderr scan is faithful for every state the claims
observe.  The `Nat` paired with the final state counts how many times the
run executes a `*is_downloading.lock().unwrap() = false` write.
-/

/-- The shared state of `YouTubeDownloader` that a run mutates:
`status`, `progress` and `is_downloading` (src/main.rs:21-27). -/
structure RunState where
  status : String
  progress : ℚ
  is_downloading : Bool
deriving DecidableEq

/-- A scripted child process: the lines its two streams deliver and the
result of `wait()` (`Except.ok true` = exit success, `Except.ok false` =
non-success exit status, `Except.error e` = OS-level wait error). -/
structure ChildProc where
  stdoutLines : List String
  stderrLines : List String
  waitResult : Except String Bool

/-- The environment one worker run observes: the results of the three
`extract_file` calls (the `Except.error` string is the already-formatted
"Failed to extract …" message the closure builds) and of `Command::spawn`
(the `Except.error` string is the OS error's display text). -/
structure WorkerEnv where
  extractYtdlp : Except String Unit
  extractDeno : Except String Unit
  extractFfmpeg : Except String Unit
  spawnResult : Except String ChildProc

/-- Effect of one stdout line in the stdout-reader thread
(src/main.rs:248-266): republish a parsed percentage, then overwrite the
status on the phase-tag substrings. -/
def processStdoutLine (s : RunState) (line : String) : RunState :=
  let s :=
    match parse_progress line with
    | some percent => { s with progress := percent }
    | none => s
  if containsStr line "[Merger]" then
    { s with status := "Merging audio and video..." }
  else if containsStr line "[ExtractAudio]" then
    { s with status := "Extracting audio..." }
  else if containsStr line "[ffmpeg]" && containsStr line "Merging" then
    { s with status := "Merging streams..." }
  else if containsStr line "[ffmpeg]" && containsStr line "Converting" then
    { s with status := "Converting to MP4..." }
  else
    s

/-- The stderr-draining loop (src/main.rs:275-284): returns the final
`(has_error, error_message)` pair, starting from `(false, "")`; every line
containing `"ERROR"` overwrites both. -/
def scanStderr (lines : List String) : Bool × String :=
  lines.foldl
    (fun acc line => if containsStr line "ERROR" then (true, line) else acc)
    (false, "")

/-- Terminal update after `child.wait()` (src/main.rs:290-306): translates
the wait result, together with the captured `(has_error, error_message)`,
into the final status/progress. -/
def waitOutcome (s : RunState) (hasErr : Bool) (errMsg : String)
    (wait : Except String Bool) : RunState :=
  match wait with
  | .ok success =>
    if success then
      { s with status := "Download complete!", progress := 100 }
    else if hasErr then
      { s with status := "Download failed: " ++ errMsg }
    else
      { s with status := "Download completed with warnings", progress := 100 }
  | .error e => { s with status := "Process error: " ++ e }

/-- One run of the worker thread's closure (src/main.rs:170-309), from the
state it starts with.  The second component counts the executions of
`*is_downloading.lock().unwrap() = false` on the taken path. -/
def workerRun (env : WorkerEnv) (s : RunState) : RunState × ℕ :=
  let s := { s with status := "Preparing..." }
  match env.extractYtdlp with
  | .error e => ({ s with status := e, is_downloading := false }, 1)
  | .ok _ =>
  match env.extractDeno with
  | .error e => ({ s with status := e, is_downloading := false }, 1)
  | .ok _ =>
  match env.extractFfmpeg with
  | .error e => ({ s with status := e, is_downloading := false }, 1)
  | .ok _ =>
  let s := { s with status := "Downloading..." }
  match env.spawnResult with
  | .error e =>
    ({ s with status := "Failed to start yt-dlp: " ++ e, is_downloading := false }, 1)
  | .ok child =>
    let s := child.stdoutLines.foldl processStdoutLine s
    let scanned := scanStderr child.stderrLines
    let s := waitOutcome s scanned.1 scanned.2 child.waitResult
    ({ s with is_downloading := false }, 1)

/-- The synchronous part of `start_download` after the empty-URL guard
(src/main.rs:166-168): reset progress to `0.0`, set the in-progress flag,
set status to `"Starting download..."`. -/
def requestPhase (_s : RunState) : RunState :=
  { status := "Starting download...", progress := 0, is_downloading := true }

/-- `start_download` (src/main.rs:153-310) as a function of the request URL,
the run's script and the current shared state.  The `Bool` records whether
the worker thread was spawned (`thread::spawn` at src/main.rs:170). -/
def start_download (url : String) (env : WorkerEnv) (s : RunState) :
    RunState × Bool :=
  if url = "" then
    ({ s with status := "Please enter a URL" }, false)
  else
    ((workerRun env (requestPhase s)).1, true)

/-!
## Spec-side characterizations

Independent formulations of the behaviours the claims describe, to be
compared with the loop-shaped definitions taken from the source.
-/

/-- Spec formulation of one token's contribution to the download rule: a
token counts exactly when it ends in `'%'` and its `'%'`-trimmed body
parses as a float. -/
def percentTokenVal (t : List Char) : Option ℚ :=
  if endsWithPct t then parseF32 (trimEndPct t) else none

/-- Spec formulation of the token scan: the value of the first token that
contributes one. -/
def firstPercentVal (toks : List (List Char)) : Option ℚ :=
  (toks.filterMap percentTokenVal).head?

/-- Spec formulation of the stderr capture: the last stderr line containing
`"ERROR"`, kept as the failure explanation. -/
def lastErrorLine (lines : List String) : Option String :=
  lines.reverse.find? (fun l => containsStr l "ERROR")

/-- The source's first-match token loop agrees with the spec's
first-contributing-token formulation. -/
theorem findPercent_eq_firstPercentVal (toks : List (List Char)) :
    findPercent toks = firstPercentVal toks := by
  induction toks with
  | nil => rfl
  | cons t rest ih =>
    unfold findPercent firstPercentVal
    by_cases h : endsWithPct t
    · cases hp : parseF32 (trimEndPct t) with
      | none =>
        simp only [h, if_true, hp, List.filterMap_cons, percentTokenVal]
        rw [ih]; rfl
      | some v =>
        simp [h, hp, List.filterMap_cons, percentTokenVal]
    · simp only [h, Bool.false_eq_true, if_false, List.filterMap_cons,
        percentTokenVal]
      rw [ih]; rfl

/-- The source's last-write-wins stderr fold agrees with the spec's
last-matching-line formulation. -/
theorem scanStderr_eq_lastErrorLine (lines : List String) :
    scanStderr lines = (lastErrorLine lines).elim (false, "") (fun m => (true, m)) := by
  induction lines using List.reverseRecOn with
  | nil => rfl
  | append_singleton xs x ih =>
    unfold scanStderr lastErrorLine at *
    rw [List.foldl_append, List.reverse_append, List.reverse_singleton,
      List.singleton_append, List.foldl_cons, List.foldl_nil]
    by_cases h : containsStr x "ERROR"
    · simp [h, List.find?_cons_of_pos]
    · simp only [h, Bool.false_eq_true, if_false]
      rw [List.find?_cons_of_neg _ (by simpa using h)]
      exact ih

/-!
## Concrete fixtures for witnesses
-/

/-- The idle state the interface starts in (`Default` impl, src/main.rs:44-52). -/
def readyState : RunState :=
  { status := "Ready", progress := 0, is_downloading := false }

/-- Environment whose three extractions succeed and whose spawn yields the
given scripted child. -/
def envOf (c : ChildProc) : WorkerEnv :=
  { extractYtdlp := .ok (), extractDeno := .ok (), extractFfmpeg := .ok ()
    spawnResult := .ok c }

/-- Scripted child: one 50% progress line, then clean exit. -/
def childExit0After50 : ChildProc :=
  { stdoutLines := ["[download]  50.0% of 10.00MiB at 1.00MiB/s ETA 00:05"]
    stderrLines := [], waitResult := .ok true }

/-- Scripted child: non-zero exit after two fatal stderr lines. -/
def childFailWithError : ChildProc :=
  { stdoutLines := []
    stderrLines := ["ERROR: first failure", "ERROR: network unreachable"]
    waitResult := .ok false }

/-- Scripted child: non-zero exit, stderr without any "ERROR" line. -/
def childFailNoError : ChildProc :=
  { stdoutLines := [], stderrLines := ["WARNING: something minor"]
    waitResult := .ok false }

/-!
## Claims
-/

/-- C1: for every run in which the spawned child exits with a success
status, the final status message is "Download complete!" and the progress
is forced to 100, regardless of the stdout lines the run observed. -/
theorem C1_success_forces_complete (url : String) (env : WorkerEnv)
    (s : RunState) (child : ChildProc)
    (hurl : url ≠ "")
    (h1 : env.extractYtdlp = .ok ())
    (h2 : env.extractDeno = .ok ())
    (h3 : env.extractFfmpeg = .ok ())
    (h4 : env.spawnResult = .ok child)
    (h5 : child.waitResult = .ok true) :
    (start_download url env s).1.status = "Download complete!" ∧
    (start_download url env s).1.progress = 100 := by
  simp [start_download, hurl, workerRun, h1, h2, h3, h4, h5, waitOutcome]

/-- Witness for C1: a simulated child that exits 0 after one
`[download] 50.0%` line still ends at status "Download complete!" and
progress 100. -/
theorem C1_success_witness :
    (start_download "https://youtu.be/v" (envOf childExit0After50) readyState).1.status =
      "Download complete!" ∧
    (start_download "https://youtu.be/v" (envOf childExit0After50) readyState).1.progress =
      100 :=
  C1_success_forces_complete "https://youtu.be/v" (envOf childExit0After50)
    readyState childExit0After50 (by decide) rfl rfl rfl rfl rfl

/-- C2: for every run in which the child exits with a non-success status
and some stderr line contains "ERROR", the final status is
"Download failed: " followed by the last such line. -/
theorem C2_failure_reports_last_error (url : String) (env : WorkerEnv)
    (s : RunState) (child : ChildProc) (m : String)
    (hurl : url ≠ "")
    (h1 : env.extractYtdlp = .ok ())
    (h2 : env.extractDeno = .ok ())
    (h3 : env.extractFfmpeg = .ok ())
    (h4 : env.spawnResult = .ok child)
    (h5 : child.waitResult = .ok false)
    (h6 : lastErrorLine child.stderrLines = some m) :
    (start_download url env s).1.status = "Download failed: " ++ m := by
  simp [start_download, hurl, workerRun, h1, h2, h3, h4, h5, waitOutcome,
    scanStderr_eq_lastErrorLine, h6]

/-- Witness for C2: a child that exits non-zero after two "ERROR" stderr
lines ends at the failure status built from the last one. -/
theorem C2_failure_witness :
    (start_download "https://youtu.be/v" (envOf childFailWithError) readyState).1.status =
      "Download failed: ERROR: network unreachable" :=
  C2_failure_reports_last_error "https://youtu.be/v" (envOf childFailWithError)
    readyState childFailWithError "ERROR: network unreachable"
    (by decide) rfl rfl rfl rfl rfl (by decide)

/-- C3: for every run in which the child exits with a non-success status
and no stderr line contains "ERROR", the final status is
"Download completed with warnings" and the progress is set to 100. -/
theorem C3_failure_without_error_is_soft (url : String) (env : WorkerEnv)
    (s : RunState) (child : ChildProc)
    (hurl : url ≠ "")
    (h1 : env.extractYtdlp = .ok ())
    (h2 : env.extractDeno = .ok ())
    (h3 : env.extractFfmpeg = .ok ())
    (h4 : env.spawnResult = .ok child)
    (h5 : child.waitResult = .ok false)
    (h6 : ∀ l ∈ child.stderrLines, containsStr l "ERROR" = false) :
    (start_download url env s).1.status = "Download completed with warnings" ∧
    (start_download url env s).1.progress = 100 := by
  have hlast : lastErrorLine child.stderrLines = none := by
    unfold lastErrorLine
    rw [List.find?_eq_none]
    intro l hl
    simp [h6 l (List.mem_reverse.mp hl)]
  simp [start_download, hurl, workerRun, h1, h2, h3, h4, h5, waitOutcome,
    scanStderr_eq_lastErrorLine, hlast]

/-- Witness for C3: a child that exits non-zero with only a warning on
stderr ends at the soft-success status with progress 100. -/
theorem C3_soft_success_witness :
    (start_download "https://youtu.be/v" (envOf childFailNoError) readyState).1.status =
      "Download completed with warnings" ∧
    (start_download "https://youtu.be/v" (envOf childFailNoError) readyState).1.progress =
      100 :=
  C3_failure_without_error_is_soft "https://youtu.be/v" (envOf childFailNoError)
    readyState childFailNoError (by decide) rfl rfl rfl rfl rfl (by decide)

/-- C7: every terminal path of the worker — each of the three extraction
failures, spawn failure, and every wait outcome — clears the in-progress
flag, and executes the flag-clearing write exactly once. -/
theorem C7_flag_cleared_exactly_once (env : WorkerEnv) (s : RunState) :
    (workerRun env s).2 = 1 ∧ (workerRun env s).1.is_downloading = false := by
  obtain ⟨e1, e2, e3, sp⟩ := env
  cases e1 <;> cases e2 <;> cases e3 <;> cases sp <;>
    simp [workerRun, waitOutcome]

/-- C8: for every request with an empty URL, `start_download` returns
without spawning the worker thread, sets the status to "Please enter a
URL", and leaves the in-progress flag false. -/
theorem C8_empty_url_no_run (env : WorkerEnv) (s : RunState)
    (h : s.is_downloading = false) :
    (start_download "" env s).2 = false ∧
    (start_download "" env s).1.status = "Please enter a URL" ∧
    (start_download "" env s).1.is_downloading = false := by
  simp [start_download, h]

/-- Witness for C8 at the idle state. -/
theorem C8_empty_url_witness :
    (start_download "" (envOf childExit0After50) readyState).2 = false ∧
    (start_download "" (envOf childExit0After50) readyState).1.status =
      "Please enter a URL" ∧
    (start_download "" (envOf childExit0After50) readyState).1.is_downloading = false :=
  C8_empty_url_no_run (envOf childExit0After50) readyState rfl

/-- C9 (counterexample): the state a request resets to does not carry the
status string "Starting…" the claim names; the code writes
"Starting download...". -/
theorem C9_counterexample :
    ¬ (∀ s : RunState, requestPhase s =
        { status := "Starting…", progress := 0, is_downloading := true }) := by
  intro h
  exact absurd (congrArg RunState.status (h readyState)) (by decide)

/-- C9 (amended): for every request with a non-empty URL, the shared state
is reset to status "Starting download...", progress 0, in-progress flag
true, and the worker then runs from that reset state. -/
theorem C9_request_reset (url : String) (env : WorkerEnv) (s : RunState)
    (h : url ≠ "") :
    requestPhase s =
      { status := "Starting download...", progress := 0, is_downloading := true } ∧
    start_download url env s = ((workerRun env (requestPhase s)).1, true) := by
  refine ⟨rfl, ?_⟩
  simp [start_download, h]

/-- Witness for the amended C9 at a concrete request. -/
theorem C9_request_reset_witness :
    requestPhase readyState =
      { status := "Starting download...", progress := 0, is_downloading := true } ∧
    start_download "https://youtu.be/v" (envOf childExit0After50) readyState =
      ((workerRun (envOf childExit0After50) (requestPhase readyState)).1, true) :=
  C9_request_reset "https://youtu.be/v" (envOf childExit0After50) readyState
    (by decide)

/-- The scientific literal `99.5` as a kernel-reducible rational. -/
theorem ratLit99_5 : (99.5 : ℚ) = mkRat 199 2 := by
  norm_num [Rat.mkRat_eq_div]

/-- The scientific literal `45.2` as a kernel-reducible rational. -/
theorem ratLit45_2 : (45.2 : ℚ) = mkRat 226 5 := by
  norm_num [Rat.mkRat_eq_div]

/-- C4: outside the merger and ffmpeg rules, the parser returns the first
parseable `%`-token of a line containing "[download]" and "%", and nothing
otherwise; the sample line yields 45.2, and a malformed token or an
unmarked line yields nothing. -/
theorem C4_download_rule (line : String)
    (hm1 : containsStr line "[Merger]" = false)
    (hm2 : containsStr line "Merging formats into" = false)
    (hf : containsStr line "[ffmpeg]" = false) :
    parse_progress line =
      (if containsStr line "[download]" && containsStr line "%" then
        firstPercentVal (splitWs line.data)
      else none) ∧
    parse_progress "[download]  45.2% of 123.45MiB at 1.23MiB/s ETA 00:15" =
      some 45.2 ∧
    parse_progress "download] ab%" = none ∧
    parse_progress "hello world" = none := by
  refine ⟨?_, ?_, by decide, by decide⟩
  · unfold parse_progress
    rw [hm1, hm2, hf]
    simp [findPercent_eq_firstPercentVal]
  · rw [ratLit45_2]; decide

/-- Witness for C4 at the spec's sample line. -/
theorem C4_download_rule_witness :
    parse_progress "[download]  45.2% of 123.45MiB at 1.23MiB/s ETA 00:15" =
      (if containsStr "[download]  45.2% of 123.45MiB at 1.23MiB/s ETA 00:15" "[download]" &&
          containsStr "[download]  45.2% of 123.45MiB at 1.23MiB/s ETA 00:15" "%" then
        firstPercentVal (splitWs ("[download]  45.2% of 123.45MiB at 1.23MiB/s ETA 00:15").data)
      else none) :=
  (C4_download_rule "[download]  45.2% of 123.45MiB at 1.23MiB/s ETA 00:15"
    (by decide) (by decide) (by decide)).1

/-- C5: any line containing "[Merger]" or "Merging formats into" yields
99.0, whatever else it contains; any other line containing "[ffmpeg]"
yields 99.5, even with "[download]" percentage text present; the download
rule only runs after both. -/
theorem C5_precedence :
    (∀ line : String,
      (containsStr line "[Merger]" || containsStr line "Merging formats into") = true →
      parse_progress line = some 99) ∧
    (∀ line : String,
      containsStr line "[Merger]" = false →
      containsStr line "Merging formats into" = false →
      containsStr line "[ffmpeg]" = true →
      parse_progress line = some 99.5) ∧
    parse_progress "[Merger] with [ffmpeg] and [download] 10.0% too" = some 99 ∧
    parse_progress "[ffmpeg] pass over [download] 10.0% text" = some 99.5 := by
  refine ⟨?_, ?_, by decide, by rw [ratLit99_5]; decide⟩
  · intro line h
    unfold parse_progress
    rw [h]
    rfl
  · intro line h1 h2 h3
    unfold parse_progress
    rw [h1, h2, h3, ratLit99_5]
    rfl

/-- Witness for C5: both precedence rules applied at concrete lines. -/
theorem C5_precedence_witness :
    parse_progress "[Merger] Merging formats into out.mp4" = some 99 ∧
    parse_progress "[ffmpeg] Converting video [download] 10.0%" = some 99.5 :=
  ⟨C5_precedence.1 "[Merger] Merging formats into out.mp4" (by decide),
   C5_precedence.2.1 "[ffmpeg] Converting video [download] 10.0%"
     (by decide) (by decide) (by decide)⟩

/-- C6 (counterexample): the parser's returned value is not always within
[0,100]: the line "[download] 150.0%" makes it return 150. -/
theorem C6_counterexample :
    ¬ (∀ (line : String) (v : ℚ), parse_progress line = some v →
        0 ≤ v ∧ v ≤ 100) := by
  intro h
  have h150 := h "[download] 150.0%" 150 (by decide)
  exact absurd h150.2 (by norm_num)

/-- C6 (amended): every value the parser returns is 99.0, 99.5, or the
unclamped numeric value of the line's first parseable `%`-token, which can
lie outside [0,100]. -/
theorem C6_range_amended (line : String) (v : ℚ)
    (h : parse_progress line = some v) :
    v = 99 ∨ v = 99.5 ∨ firstPercentVal (splitWs line.data) = some v := by
  unfold parse_progress at h
  rw [ratLit99_5]
  split_ifs at h with hm hf hd
  · exact Or.inl (Option.some.inj h).symm
  · exact Or.inr (Or.inl (Option.some.inj h).symm)
  · rw [findPercent_eq_firstPercentVal] at h
    exact Or.inr (Or.inr h)

/-- Witness for the amended C6 at the out-of-range line. -/
theorem C6_range_amended_witness :
    (150 : ℚ) = 99 ∨ (150 : ℚ) = 99.5 ∨
      firstPercentVal (splitWs ("[download] 150.0%").data) = some 150 :=
  C6_range_amended "[download] 150.0%" 150 (by decide)

/-- C10: the token scan of the download rule skips tokens that contribute
no value (not ending in '%', or with an unparseable numeric body) and
returns the first contributing token's value; in particular
"[download] N/A% 42.0%" yields 42. -/
theorem C10_scan_skips_unparseable :
    (∀ (pre post : List (List Char)) (t : List Char) (v : ℚ),
      (∀ u ∈ pre, percentTokenVal u = none) →
      percentTokenVal t = some v →
      findPercent (pre ++ t :: post) = some v) ∧
    parse_progress "[download] N/A% 42.0%" = some 42 := by
  refine ⟨?_, by decide⟩
  intro pre post t v
  induction pre with
  | nil =>
    intro _ ht
    have hts : endsWithPct t = true ∧ parseF32 (trimEndPct t) = some v := by
      unfold percentTokenVal at ht
      by_cases he : endsWithPct t
      · exact ⟨he, by rwa [if_pos he] at ht⟩
      · rw [if_neg he] at ht
        exact absurd ht (by simp)
    rw [List.nil_append]
    unfold findPercent
    simp [hts.1, hts.2]
  | cons u pre ih =>
    intro hpre ht
    have hu : percentTokenVal u = none := hpre u (List.mem_cons_self u pre)
    have hpre' : ∀ w ∈ pre, percentTokenVal w = none :=
      fun w hw => hpre w (List.mem_cons_of_mem u hw)
    rw [List.cons_append]
    unfold findPercent
    unfold percentTokenVal at hu
    by_cases he : endsWithPct u
    · rw [if_pos he] at hu
      rw [he, hu]
      exact ih hpre' ht
    · rw [Bool.not_eq_true] at he
      rw [he]
      exact ih hpre' ht

/-- Witness for C10: the unparseable token "N/A%" is skipped in favour of
the later "42.0%". -/
theorem C10_scan_witness :
    findPercent ([("N/A%").data] ++ ("42.0%").data :: []) = some 42 :=
  C10_scan_skips_unparseable.1 [("N/A%").data] [] (("42.0%").data) 42
    (by decide) (by decide)
